import Mathlib

/-!
Verification development for the Eyes Café analytics service bootstrap
(`src/analytics/main.py`): a FastAPI application with two constant GET
routes (`/` and `/health`) and a port read from the `ANALYTICS_PORT`
environment variable, defaulting to 8001.
-/

namespace Analytics

/-- A process environment: an association list from variable names to values. -/
def Env : Type := List (String × String)

/-- `os.getenv(name)`: the value of `name` in the environment, if set. -/
def getenv (env : Env) (name : String) : Option String :=
  (List.find? (fun p => p.1 == name) env).map Prod.snd

/-- Python whitespace stripped by `int()` before parsing (`str.strip()` set,
restricted to the ASCII characters: space, tab, newline, carriage return,
vertical tab, form feed). -/
def pyWs (c : Char) : Bool :=
  c == ' ' || c == '\t' || c == '\n' || c == '\r' || c == '\x0b' || c == '\x0c'

/-- Strip leading and trailing Python whitespace from a character list. -/
def stripWs (cs : List Char) : List Char :=
  ((cs.dropWhile pyWs).reverse.dropWhile pyWs).reverse

/-- The numeric value of a decimal digit character, if it is one. -/
def digitVal (c : Char) : Option Nat :=
  if c.isDigit then some (c.toNat - 48) else none

/-- Parse a run of decimal digits, allowing a single underscore between two
digits (Python numeric-literal grammar used by `int()`); `acc` is the value
so far and `prevDigit` records whether the previous character was a digit
(an underscore may only follow a digit and must be followed by one). -/
def parseDigitsAux : Nat → Bool → List Char → Option Nat
  | acc, true, [] => some acc
  | _, false, [] => none
  | acc, prevDigit, c :: cs =>
    if c == '_' then
      if prevDigit then parseDigitsAux acc false cs else none
    else
      match digitVal c with
      | some d => parseDigitsAux (acc * 10 + d) true cs
      | none => none

/-- Parse a nonempty underscore-separated digit string to its value. -/
def parseDigits (cs : List Char) : Option Nat :=
  parseDigitsAux 0 false cs

/-- Python's builtin `int(s)` on a string with the default base 10: strip
whitespace, accept an optional sign followed by digits (with underscores
between digits); `none` models a raised `ValueError`. -/
def pythonIntOfString (s : String) : Option Int :=
  match stripWs s.data with
  | '+' :: rest => (parseDigits rest).map Int.ofNat
  | '-' :: rest => (parseDigits rest).map (fun n => -(Int.ofNat n))
  | cs => (parseDigits cs).map Int.ofNat

/-- `int(os.getenv("ANALYTICS_PORT", 8001))` from `src/analytics/main.py`:
when the variable is unset, `os.getenv` yields the integer default `8001`
and `int` leaves it unchanged; when it is set, its string value is parsed.
`none` models a raised `ValueError`. -/
def computePort (env : Env) : Option Int :=
  match getenv env "ANALYTICS_PORT" with
  | none => some 8001
  | some s => pythonIntOfString s

/-- The ways the bootstrap can fail before serving: `valueError` is a
`ValueError` raised by `int()` on the port variable, `bindError` is
`uvicorn.run` failing to bind the listener. -/
inductive StartupError where
  | valueError : StartupError
  | bindError : StartupError
deriving DecidableEq, Repr

/-- The `__main__` block of `src/analytics/main.py`: compute the port (which
may raise `ValueError`), then start the server, which binds the listener on
the computed port. `bindOk` models whether the operating system lets the
process bind a given port. On success the served port is returned. -/
def startup (env : Env) (bindOk : Int → Bool) : Except StartupError Int :=
  match computePort env with
  | none => Except.error StartupError.valueError
  | some p => if bindOk p then Except.ok p else Except.error StartupError.bindError

/-- Whether the process ever reaches the serving state. -/
def serving (env : Env) (bindOk : Int → Bool) : Bool :=
  match startup env bindOk with
  | Except.ok _ => true
  | Except.error _ => false

/-- The process exit status: a Python process that terminates by an uncaught
exception exits with status 1; a graceful shutdown after serving exits 0. -/
def exitCode (env : Env) (bindOk : Int → Bool) : Nat :=
  match startup env bindOk with
  | Except.error _ => 1
  | Except.ok _ => 0

/-- The registered routes of the application. -/
inductive Route where
  | root : Route
  | health : Route
deriving DecidableEq, Repr

/-- The `title` given to the `FastAPI` application. -/
def app_title : String := "Eyes Café Analytics Service"

/-- The dictionary returned by the `root` handler for `GET /`. -/
def root_body : List (String × String) :=
  [("message", "Eyes Café Analytics Service"), ("status", "running")]

/-- The dictionary returned by the `health_check` handler for `GET /health`. -/
def health_check_body : List (String × String) :=
  [("status", "healthy")]

/-- An HTTP response: status code, `Content-Type` header value, and the JSON
object body as an ordered list of string key-value pairs. -/
structure Response where
  status : Nat
  contentType : String
  body : List (String × String)
deriving DecidableEq, Repr

/-- FastAPI wraps a handler's returned dict in a `JSONResponse`: HTTP 200
with `Content-Type: application/json`. -/
def jsonResponse (body : List (String × String)) : Response :=
  { status := 200, contentType := "application/json", body := body }

/-- Dispatch a request to the matching handler and produce its response. -/
def handle : Route → Response
  | Route.root => jsonResponse root_body
  | Route.health => jsonResponse health_check_body

/-- The handler bodies as fallible Python computations: each consists of a
single `return` of a dict literal, which cannot raise, so each is `ok`. -/
def dispatchExc : Route → Except String Response
  | Route.root => Except.ok (jsonResponse root_body)
  | Route.health => Except.ok (jsonResponse health_check_body)

/-- URL path routing as registered by the two `@app.get` decorators. -/
def routeOf : String → Option Route
  | "/" => some Route.root
  | "/health" => some Route.health
  | _ => none

/-- Serialize a JSON object body the way `JSONResponse` does (compact
separators, string values quoted). -/
def renderBody (kvs : List (String × String)) : String :=
  "\x7b" ++ String.intercalate ","
    (kvs.map (fun kv => "\"" ++ kv.1 ++ "\":\"" ++ kv.2 ++ "\"")) ++ "\x7d"

/-- The bytes of a response on the wire: status line, content-type header,
serialized body. -/
def responseBytes (r : Response) : String :=
  "HTTP " ++ toString r.status ++ "\ncontent-type: " ++ r.contentType
    ++ "\n\n" ++ renderBody r.body

/-- The running server's state: the port it serves on and the history of
requests handled so far (the only thing that evolves across requests). -/
structure ServerState where
  port : Int
  handled : List Route
deriving DecidableEq, Repr

/-- Handle one request: record it in the history and respond. The handlers
consult no state, so the response is computed by `handle` alone. -/
def step (s : ServerState) (r : Route) : ServerState × Response :=
  ({ port := s.port, handled := s.handled ++ [r] }, handle r)

/-- Run the server over a sequence of requests, collecting the responses. -/
def run : ServerState → List Route → ServerState × List Response
  | s, [] => (s, [])
  | s, r :: rs =>
    ((run (step s r).1 rs).1, (step s r).2 :: (run (step s r).1 rs).2)

theorem run_responses (s : ServerState) (rs : List Route) :
    (run s rs).2 = rs.map handle := by
  induction rs generalizing s with
  | nil => rfl
  | cons r rs ih => simp [run, step, ih]

theorem run_port (s : ServerState) (rs : List Route) :
    (run s rs).1.port = s.port := by
  induction rs generalizing s with
  | nil => rfl
  | cons r rs ih => simp [run, step, ih]

end Analytics

namespace Analytics

/-- C1: for every server state (any configuration, any prior requests),
`GET /health` returns HTTP 200 with content type `application/json` and
exactly the JSON body with the single field `status` set to `healthy`. -/
theorem health_check_constant (s : ServerState) :
    (step s Route.health).2 =
      { status := 200, contentType := "application/json",
        body := [("status", "healthy")] } ∧
    renderBody (step s Route.health).2.body = "\x7b\"status\":\"healthy\"\x7d" :=
  ⟨rfl, rfl⟩

/-- C2: for every server state, `GET /` returns HTTP 200 with a JSON body
whose `message` field is the service name (the application title) and whose
`status` field is exactly the string `running`. -/
theorem root_constant (s : ServerState) :
    (step s Route.root).2.status = 200 ∧
    List.lookup "message" (step s Route.root).2.body = some app_title ∧
    List.lookup "status" (step s Route.root).2.body = some "running" :=
  ⟨rfl, rfl, rfl⟩

/-- C3: the configured port is the integer value of `ANALYTICS_PORT` when
that variable is present (and has an integer value), and 8001 when it is
absent. -/
theorem port_from_env (env : Env) :
    (getenv env "ANALYTICS_PORT" = none → computePort env = some 8001) ∧
    (∀ s n, getenv env "ANALYTICS_PORT" = some s → pythonIntOfString s = some n →
      computePort env = some n) := by
  constructor
  · intro h
    simp [computePort, h]
  · intro s n hs hn
    simp [computePort, hs, hn]

/-- C3 witness: `ANALYTICS_PORT=9999` yields port 9999 and an empty
environment yields port 8001. -/
theorem port_from_env_witness :
    computePort [("ANALYTICS_PORT", "9999")] = some 9999 ∧ computePort [] = some 8001 :=
  ⟨(port_from_env [("ANALYTICS_PORT", "9999")]).2 "9999" 9999 rfl rfl,
   (port_from_env []).1 rfl⟩

/-- C4 counterexample: with `ANALYTICS_PORT` set to `abc`, even when binding
any port would succeed, startup fails with a `ValueError` from `int()` — an
error that is not a bind failure, so bind failure is not the only error
kind. -/
theorem single_error_kind_cex :
    startup [("ANALYTICS_PORT", "abc")] (fun _ => true) =
      Except.error StartupError.valueError ∧
    StartupError.valueError ≠ StartupError.bindError :=
  ⟨rfl, by decide⟩

/-- C4 amended: the system has exactly two error kinds — a `ValueError`
raised while parsing `ANALYTICS_PORT`, and failure to bind the listener —
and these are the only failures: every startup error is one of the two
(each occurring exactly under its condition), and no request handler can
fail. -/
theorem error_taxonomy (env : Env) (bindOk : Int → Bool) :
    (∀ e, startup env bindOk = Except.error e →
      (e = StartupError.valueError ∧ computePort env = none) ∨
      (e = StartupError.bindError ∧
        ∃ p, computePort env = some p ∧ bindOk p = false)) ∧
    (∀ r msg, dispatchExc r ≠ Except.error msg) := by
  constructor
  · intro e he
    cases hc : computePort env with
    | none =>
      simp [startup, hc] at he
      exact Or.inl ⟨he.symm, rfl⟩
    | some p =>
      by_cases hb : bindOk p = true
      · simp [startup, hc, hb] at he
      · rw [Bool.not_eq_true] at hb
        simp [startup, hc, hb] at he
        exact Or.inr ⟨he.symm, p, rfl, hb⟩
  · intro r msg
    cases r <;> simp [dispatchExc]

/-- C4 amended witness: with an empty environment and binding refused, the
startup error is classified as a bind failure on the default port 8001. -/
theorem error_taxonomy_witness :
    (StartupError.bindError = StartupError.valueError ∧
      computePort [] = none) ∨
    (StartupError.bindError = StartupError.bindError ∧
      ∃ p, computePort [] = some p ∧ (fun _ : Int => false) p = false) :=
  (error_taxonomy [] (fun _ => false)).1 StartupError.bindError rfl

/-- C5: responses are deterministic constants of the route alone — for any
two server runs from any initial states, any two positions in the request
sequences carrying the same route receive byte-identical responses. -/
theorem responses_deterministic (s1 s2 : ServerState) (rs1 rs2 : List Route)
    (i j : Nat) (r : Route)
    (h1 : rs1[i]? = some r) (h2 : rs2[j]? = some r) :
    ((run s1 rs1).2[i]?).map responseBytes =
    ((run s2 rs2).2[j]?).map responseBytes := by
  rw [run_responses, run_responses, List.getElem?_map, List.getElem?_map, h1, h2]

/-- C5 witness: the first request of one run and the third of another, both
to `/`, from different states and histories, get byte-identical responses. -/
theorem responses_deterministic_witness :
    ((run { port := 8001, handled := [] } [Route.root, Route.health]).2[0]?).map
      responseBytes =
    ((run { port := 9999, handled := [Route.health] }
        [Route.health, Route.root, Route.root]).2[2]?).map responseBytes :=
  responses_deterministic { port := 8001, handled := [] }
    { port := 9999, handled := [Route.health] }
    [Route.root, Route.health] [Route.health, Route.root, Route.root]
    0 2 Route.root rfl rfl

/-- C6: the port is read exactly once at process start — a successful
startup fixes it to the single value read from the environment — and no
sequence of requests handled by the running server ever changes it. -/
theorem port_immutable (env : Env) (bindOk : Int → Bool) (p : Int)
    (rs : List Route) (h : startup env bindOk = Except.ok p) :
    computePort env = some p ∧ (run { port := p, handled := [] } rs).1.port = p := by
  constructor
  · cases hc : computePort env with
    | none => simp [startup, hc] at h
    | some q =>
      by_cases hb : bindOk q = true
      · simp [startup, hc, hb] at h
        exact congrArg some h
      · rw [Bool.not_eq_true] at hb
        simp [startup, hc, hb] at h
  · exact run_port _ _

/-- C6 witness: with `ANALYTICS_PORT=9999` and binding allowed, the port is
9999 and survives a run of three requests unchanged. -/
theorem port_immutable_witness :
    computePort [("ANALYTICS_PORT", "9999")] = some 9999 ∧
    (run { port := 9999, handled := [] }
      [Route.root, Route.health, Route.root]).1.port = 9999 :=
  port_immutable [("ANALYTICS_PORT", "9999")] (fun _ => true) 9999
    [Route.root, Route.health, Route.root] rfl

/-- C7: every response from `GET /` and `GET /health` carries the header
`Content-Type: application/json`. -/
theorem content_type_always_json :
    ∀ r : Route, (handle r).contentType = "application/json" := by
  intro r
  cases r <;> rfl

/-- C8: the process exits 0 exactly when startup succeeded (graceful
shutdown of the served process); whenever startup fails — bind failure or
the `ValueError` startup error — the exit status is nonzero and the serving
state is never reached, so no partial service is exposed. -/
theorem exit_status (env : Env) (bindOk : Int → Bool) :
    (∀ p, startup env bindOk = Except.ok p → exitCode env bindOk = 0) ∧
    (∀ e, startup env bindOk = Except.error e →
      exitCode env bindOk ≠ 0 ∧ serving env bindOk = false) := by
  constructor
  · intro p hp
    unfold exitCode
    rw [hp]
  · intro e he
    unfold exitCode serving
    rw [he]
    exact ⟨one_ne_zero, rfl⟩

/-- C8 witness: with the default port and binding refused (port already in
use), the exit status is nonzero and the service never serves. -/
theorem exit_status_witness :
    exitCode [] (fun _ => false) ≠ 0 ∧ serving [] (fun _ => false) = false :=
  (exit_status [] (fun _ => false)).2 StartupError.bindError rfl

/-- C9: whenever `ANALYTICS_PORT` is set to a string that `int()` rejects —
the empty string among them — startup fails with `ValueError` during the
port computation, independently of any bind outcome (the listener is never
created), and the process never serves. -/
theorem invalid_port_never_serves (env : Env) (s : String)
    (hs : getenv env "ANALYTICS_PORT" = some s)
    (hp : pythonIntOfString s = none) :
    ∀ bindOk : Int → Bool,
      startup env bindOk = Except.error StartupError.valueError ∧
      serving env bindOk = false := by
  intro bindOk
  have hc : computePort env = none := by
    simp [computePort, hs, hp]
  constructor
  · unfold startup
    rw [hc]
  · unfold serving startup
    rw [hc]

/-- C9 witness: with `ANALYTICS_PORT` set to the empty string, startup
raises `ValueError` and the process never serves, even though binding any
port would have succeeded. -/
theorem invalid_port_never_serves_witness :
    startup [("ANALYTICS_PORT", "")] (fun _ => true) =
      Except.error StartupError.valueError ∧
    serving [("ANALYTICS_PORT", "")] (fun _ => true) = false :=
  invalid_port_never_serves [("ANALYTICS_PORT", "")] "" rfl rfl (fun _ => true)

/-- C10: both registered routes dispatch to a handler that terminates with a
response and never raises: for each route the fallible handler computation
returns `ok` with exactly the dispatched response, and routing resolves both
paths. -/
theorem handlers_total :
    (∀ r : Route, dispatchExc r = Except.ok (handle r)) ∧
    routeOf "/" = some Route.root ∧ routeOf "/health" = some Route.health := by
  refine ⟨?_, rfl, rfl⟩
  intro r
  cases r <;> rfl

end Analytics
